import Mathlib

/-!
Verification development for the `python-bot` repository.

The repository's core (file `test/test1.py`) consists of three components:
`SmartConversationMemory` (a JSON-file-backed user store), `IntelligentInfoExtractor`
(a regex-driven extractor of personal information from French text), and
`SmartAzureAIAgent` (an orchestrator around an external chat-completion API).

This file shallowly embeds those components:
* Python dicts become association lists over `String` keys (Python 3 dicts keep
  insertion order; assignment replaces in place, new keys are appended).
* The regular expressions used by the extractor are embedded as token sequences
  (`Tok`) and executed with a backtracking matcher `matchToks` that reproduces
  Python `re.search` semantics (leftmost match, greedy quantifiers with
  backtracking, alternatives tried left to right) on the pattern class actually
  occurring in the source.
* Wall-clock timestamps (`datetime.now().isoformat()`) are threaded as explicit
  `now : String` arguments; `datetime.fromisoformat`-based day arithmetic is an
  explicit function argument (it is Python standard library, external to the repo).
* The external Azure chat-completion client is an explicit function argument
  returning `Except` (an exception or a reply).
* File persistence is modelled by an explicit JSON document type: saving builds
  the persisted document, loading extracts and decodes its `conversations` field.
-/

set_option autoImplicit false

namespace PyBot

/-! ## Python string helpers -/

/-- Python whitespace characters relevant to `\s` and `str.strip()` (ASCII set). -/
def isSpaceChar (c : Char) : Bool :=
  c = ' ' || c = '\t' || c = '\n' || c = '\x0d' || c = '\x0b' || c = '\x0c'

/-- The character class `\w` of Python `re` (letters, digits, underscore). -/
def isWordChar (c : Char) : Bool := c.isAlphanum || c = '_'

/-- The character class `\d`. -/
def isDigitChar (c : Char) : Bool := c.isDigit

/-- The character class `[^\d]`. -/
def isNotDigitChar (c : Char) : Bool := !c.isDigit

/-- The apostrophe, i.e. the single character matched by the class `['\']`. -/
def aposChar : Char := '\x27'

/-- The class `['\']`. -/
def isAposChar (c : Char) : Bool := c = aposChar

/-- The character class `[^.!?]` (anything but a sentence terminator). -/
def isNotTermChar (c : Char) : Bool := c ≠ '.' && c ≠ '!' && c ≠ '?'

/-- Python `str.lower()` (ASCII case folding suffices for the embedded patterns). -/
def pyLower (s : String) : String := String.mk (s.toList.map Char.toLower)

/-- Python `str.strip()`: remove leading and trailing whitespace. -/
def pyStrip (s : String) : String :=
  String.mk (((s.toList.dropWhile isSpaceChar).reverse.dropWhile isSpaceChar).reverse)

/-- Python `str.capitalize()`: first character upper-cased, the rest lower-cased. -/
def pyCapitalize (s : String) : String :=
  match s.toList with
  | [] => ""
  | c :: cs => String.mk (c.toUpper :: cs.map Char.toLower)

/-- Python `str.title()`: each maximal alphabetic run gets a capital first letter. -/
def pyTitle (s : String) : String :=
  let f : (List Char × Bool) → Char → (List Char × Bool) := fun acc c =>
    if c.isAlpha then
      (acc.1 ++ [if acc.2 then c.toLower else c.toUpper], true)
    else
      (acc.1 ++ [c], false)
  String.mk (s.toList.foldl f ([], false)).1

/-- `int(...)` on a nonempty string of decimal digits. -/
def digitsToNat (s : String) : Nat :=
  s.toList.foldl (fun acc c => 10 * acc + (c.toNat - '0'.toNat)) 0

/-! ## A small regex engine

The extractor's patterns use only: literal text, a single character from a
class (`['\']`), greedy `cls*` / `cls+`, one captured group `(cls+)`, and a
non-capturing alternation of literal words (`(?:en|dans|comme)`).  `Tok`
represents exactly these constructs; a pattern is a `List Tok`. -/

/-- One token of an embedded regular expression. -/
inductive Tok where
  | lit : String → Tok
  | cls1 : (Char → Bool) → Tok
  | star : (Char → Bool) → Tok
  | plus : (Char → Bool) → Tok
  | group : (Char → Bool) → Tok
  | alts : List String → Tok

/-- Consume a literal from the front of the input; `none` when it does not match. -/
def dropLit : List Char → List Char → Option (List Char)
  | [], cs => some cs
  | _ :: _, [] => none
  | p :: ps, c :: cs => if p = c then dropLit ps cs else none

/-- Maximal run of characters satisfying `f`, together with the rest. -/
def takeClass (f : Char → Bool) : List Char → List Char × List Char
  | [] => ([], [])
  | c :: cs =>
    if f c then
      let r := takeClass f cs
      (c :: r.1, r.2)
    else ([], c :: cs)

/-- `[n, n-1, ..., 0]`: greedy-first candidate lengths for `cls*`. -/
def downFrom : Nat → List Nat
  | 0 => [0]
  | n + 1 => (n + 1) :: downFrom n

/-- `[n, n-1, ..., 1]`: greedy-first candidate lengths for `cls+`. -/
def downFrom1 : Nat → List Nat
  | 0 => []
  | n + 1 => (n + 1) :: downFrom1 n

/-- The ways a single token can consume a prefix of the input, in the priority
order Python `re` explores them (greedy quantifiers longest first, alternatives
left to right).  Each candidate is the capture produced by the token (for the
captured group) and the remaining input. -/
def tokAlternatives (t : Tok) (cs : List Char) :
    List (Option (List Char) × List Char) :=
  match t with
  | .lit s =>
    match dropLit s.toList cs with
    | some cs' => [(none, cs')]
    | none => []
  | .cls1 f =>
    match cs with
    | [] => []
    | c :: cs' => if f c then [(none, cs')] else []
  | .star f => (downFrom (takeClass f cs).1.length).map (fun k => (none, cs.drop k))
  | .plus f => (downFrom1 (takeClass f cs).1.length).map (fun k => (none, cs.drop k))
  | .group f =>
    (downFrom1 (takeClass f cs).1.length).map (fun k => (some (cs.take k), cs.drop k))
  | .alts os => os.filterMap (fun o => (dropLit o.toList cs).map (fun cs' => (none, cs')))

/-- Keep the first (leftmost in the pattern) group's capture. -/
def mergeCap : Option (List Char) → Option (List Char) → Option (List Char)
  | some c, _ => some c
  | none, sub => sub

/-- Match a token sequence against a prefix of the input, with backtracking,
exactly as Python `re` does on these token forms.  On success, returns the text
captured by the first group of the pattern, when one was traversed. -/
def matchToks : List Tok → List Char → Option (Option (List Char))
  | [] => fun _ => some none
  | t :: rest => fun cs =>
    (tokAlternatives t cs).findSome? fun alt =>
      (matchToks rest alt.2).map (fun sub => mergeCap alt.1 sub)

/-- `re.search` on a character list: try successive start positions, leftmost
match wins; returns the text of capture group 1. -/
def searchChars (toks : List Tok) : List Char → Option String
  | [] =>
    match matchToks toks [] with
    | some cap => some (String.mk (cap.getD []))
    | none => none
  | c :: cs =>
    match matchToks toks (c :: cs) with
    | some cap => some (String.mk (cap.getD []))
    | none => searchChars toks cs

/-! ## IntelligentInfoExtractor

Embedding of `IntelligentInfoExtractor.extract_personal_info`.  Each Python
pattern list is transcribed token by token; the `for pattern in patterns:
if match: ... break` loop is `extractCategory`. -/

/-- The name patterns (`name_patterns` in the source). -/
def name_patterns : List (List Tok) :=
  [[.lit "je m", .cls1 isAposChar, .lit "appelle", .plus isSpaceChar, .group isWordChar],
   [.lit "mon nom est", .plus isSpaceChar, .group isWordChar],
   [.lit "je suis", .plus isSpaceChar, .group isWordChar],
   [.lit "c", .cls1 isAposChar, .lit "est", .plus isSpaceChar, .group isWordChar],
   [.lit "moi c", .cls1 isAposChar, .lit "est", .plus isSpaceChar, .group isWordChar]]

/-- The profession patterns (`job_patterns` in the source). -/
def job_patterns : List (List Tok) :=
  [[.lit "je travaille ", .alts ["en", "dans", "comme"], .plus isSpaceChar,
    .group isNotTermChar],
   [.lit "je suis", .plus isSpaceChar, .alts ["un", "une"], .plus isSpaceChar,
    .group isNotTermChar],
   [.lit "ma profession est", .plus isSpaceChar, .group isNotTermChar],
   [.lit "je fais", .plus isSpaceChar, .group isNotTermChar],
   [.lit "mon métier est", .plus isSpaceChar, .group isNotTermChar]]

/-- The age patterns (`age_patterns` in the source). -/
def age_patterns : List (List Tok) :=
  [[.lit "j", .cls1 isAposChar, .lit "ai", .plus isSpaceChar, .group isDigitChar,
    .plus isSpaceChar, .lit "ans"],
   [.lit "age", .star isNotDigitChar, .group isDigitChar],
   [.group isDigitChar, .plus isSpaceChar, .lit "ans"]]

/-- The city patterns (`city_patterns` in the source). -/
def city_patterns : List (List Tok) :=
  [[.lit "j", .cls1 isAposChar, .lit "habite à", .plus isSpaceChar, .group isNotTermChar],
   [.lit "je vis à", .plus isSpaceChar, .group isNotTermChar],
   [.lit "je suis de", .plus isSpaceChar, .group isNotTermChar],
   [.lit "ma ville est", .plus isSpaceChar, .group isNotTermChar]]

/-- The hobby patterns (`hobby_patterns` in the source). -/
def hobby_patterns : List (List Tok) :=
  [[.lit "j", .cls1 isAposChar, .lit "aime", .plus isSpaceChar, .group isNotTermChar],
   [.lit "mes hobbies sont", .plus isSpaceChar, .group isNotTermChar],
   [.lit "je pratique", .plus isSpaceChar, .group isNotTermChar],
   [.lit "mon passe-temps est", .plus isSpaceChar, .group isNotTermChar]]

/-- One per-category extraction loop of `extract_personal_info`: try the
patterns in priority order; at the FIRST one that matches, validate and
transform the captured text (an invalid capture yields nothing for the
category — the `break` still fires); only when a pattern does not match at all
is the next pattern tried. -/
def extractCategory {α : Type} (validate : String → Bool) (transform : String → α) :
    List (List Tok) → List Char → Option α
  | [], _ => none
  | p :: rest, cs =>
    match searchChars p cs with
    | some cap => if validate cap then some (transform cap) else none
    | none => extractCategory validate transform rest cs

/-- Validation for a captured profession: `len(job) > 2 and len(job) < 50`
after `strip()`. -/
def jobValid (cap : String) : Bool :=
  decide (2 < (pyStrip cap).length) && decide ((pyStrip cap).length < 50)

/-- Validation for a captured age: `10 <= age <= 100`. -/
def ageValid (cap : String) : Bool :=
  decide (10 ≤ digitsToNat cap) && decide (digitsToNat cap ≤ 100)

/-- Validation for a captured city: `len(city) > 1 and len(city) < 30` after
`strip()`. -/
def cityValid (cap : String) : Bool :=
  decide (1 < (pyStrip cap).length) && decide ((pyStrip cap).length < 30)

/-- Validation for a captured hobby: `len(hobby) > 2 and len(hobby) < 100`
after `strip()`. -/
def hobbyValid (cap : String) : Bool :=
  decide (2 < (pyStrip cap).length) && decide ((pyStrip cap).length < 100)

/-- The result of `extract_personal_info`: a dict with at most the keys
`nom`, `profession`, `age`, `ville`, `hobbies` (an absent key is `none`). -/
structure ExtractedInfo where
  nom : Option String
  profession : Option String
  age : Option Nat
  ville : Option String
  hobbies : Option String
deriving DecidableEq, Repr

/-- `IntelligentInfoExtractor.extract_personal_info`: lower-case the message,
then run the five per-category first-match-wins loops. -/
def extract_personal_info (message : String) : ExtractedInfo :=
  let cs := (pyLower message).toList
  { nom := extractCategory (fun _ => true) pyCapitalize name_patterns cs
    profession := extractCategory jobValid pyStrip job_patterns cs
    age := extractCategory ageValid digitsToNat age_patterns cs
    ville := extractCategory cityValid (fun c => pyTitle (pyStrip c)) city_patterns cs
    hobbies := extractCategory hobbyValid pyStrip hobby_patterns cs }

/-- The empty extraction result (`info == {}` in Python). -/
def ExtractedInfo.isEmpty (i : ExtractedInfo) : Bool :=
  i.nom.isNone && i.profession.isNone && i.age.isNone && i.ville.isNone &&
    i.hobbies.isNone

/-! ## Python dicts as association lists

Python 3 dicts keep insertion order.  `d[k] = v` overwrites in place when `k`
is present and appends otherwise; `d.update(m)` performs `d[k] = v` for each
entry of `m` in order; `len(d)` is the number of (distinct) keys. -/

/-- `d.get(k)` / `k in d`: first (only) binding of `k`. -/
def dictGet? {α : Type} : List (String × α) → String → Option α
  | [], _ => none
  | (k', v) :: rest, k => if k' = k then some v else dictGet? rest k

/-- `d[k] = v`: replace in place, or append when the key is new. -/
def dictSet {α : Type} : List (String × α) → String → α → List (String × α)
  | [], k, v => [(k, v)]
  | (k', v') :: rest, k, v =>
    if k' = k then (k, v) :: rest else (k', v') :: dictSet rest k v

/-- A value stored in a `basic_info` dict: the extractor writes strings for
`nom`, `profession`, `ville`, `hobbies` and an integer for `age`. -/
inductive Value where
  | vstr : String → Value
  | vnat : Nat → Value
deriving DecidableEq, Repr

/-- A Python dict of personal information. -/
abbrev InfoDict : Type := List (String × Value)

/-- `d.update(new_info)`. -/
def dictUpdate (d : InfoDict) (new_info : InfoDict) : InfoDict :=
  new_info.foldl (fun acc kv => dictSet acc kv.1 kv.2) d

/-- The dict `extract_personal_info` builds, in the insertion order of the
source (`nom`, `profession`, `age`, `ville`, `hobbies`). -/
def infoToDict (i : ExtractedInfo) : InfoDict :=
  (i.nom.map (fun s => ("nom", Value.vstr s))).toList ++
  (i.profession.map (fun s => ("profession", Value.vstr s))).toList ++
  (i.age.map (fun n => ("age", Value.vnat n))).toList ++
  (i.ville.map (fun s => ("ville", Value.vstr s))).toList ++
  (i.hobbies.map (fun s => ("hobbies", Value.vstr s))).toList

/-! ## SmartConversationMemory: data model -/

/-- One conversation exchange record (see `add_conversation_exchange`). -/
structure Exchange where
  exchange_id : Nat
  timestamp : String
  user_message_content : String
  user_message_timestamp : String
  ai_response_content : String
  ai_response_timestamp : String
deriving DecidableEq, Repr

/-- One user profile (see `create_new_user_profile`). -/
structure UserProfile where
  user_id : String
  created_at : String
  last_active : String
  is_first_conversation : Bool
  basic_info : InfoDict
  learning_phase : Bool
  total_messages : Nat
  conversation_sessions : Nat
  messages : List Exchange
  preferences : InfoDict
  personality_traits : List String
deriving DecidableEq, Repr

/-- The in-memory `self.conversations` mapping: user id → profile. -/
abbrev Store : Type := List (String × UserProfile)

/-- `is_existing_user`. -/
def is_existing_user (store : Store) (user_id : String) : Bool :=
  (dictGet? store user_id).isSome

/-- `get_user_basic_info`: the profile's `basic_info`, `{}` for an unknown user. -/
def get_user_basic_info (store : Store) (user_id : String) : InfoDict :=
  match dictGet? store user_id with
  | some user_data => user_data.basic_info
  | none => []

/-- The fresh profile built by `create_new_user_profile` at time `now`. -/
def freshProfile (now : String) (user_id : String) : UserProfile :=
  { user_id := user_id
    created_at := now
    last_active := now
    is_first_conversation := true
    basic_info := []
    learning_phase := true
    total_messages := 0
    conversation_sessions := 0
    messages := []
    preferences := []
    personality_traits := [] }

/-- `create_new_user_profile`: store the fresh profile under `user_id` and
persist (persistence itself is modelled separately, see `save_all_conversations`). -/
def create_new_user_profile (now : String) (store : Store) (user_id : String) :
    Store :=
  dictSet store user_id (freshProfile now user_id)

/-- `update_basic_info`: create the profile when absent, merge `new_info` into
`basic_info`, refresh `last_active`, and end the learning phase once the dict
has at least 3 keys (the flag is never set back to `True` here). -/
def update_basic_info (now : String) (store : Store) (user_id : String)
    (new_info : InfoDict) : Store :=
  let store1 :=
    if is_existing_user store user_id then store
    else create_new_user_profile now store user_id
  match dictGet? store1 user_id with
  | none => store1
  | some user_data =>
    let bi := dictUpdate user_data.basic_info new_info
    dictSet store1 user_id
      { user_data with
        basic_info := bi
        last_active := now
        learning_phase :=
          if 3 ≤ bi.length then false else user_data.learning_phase }

/-- `add_conversation_exchange`: create the profile when absent; count two more
messages; on the first conversation only, clear `is_first_conversation` and set
`conversation_sessions = 1`; append the next exchange (1-based sequential id);
finally, when `extracted_info` is non-empty, merge it via `update_basic_info`. -/
def add_conversation_exchange (now : String) (store : Store) (user_id : String)
    (user_message : String) (ai_response : String) (extracted_info : InfoDict) :
    Store :=
  let store1 :=
    if is_existing_user store user_id then store
    else create_new_user_profile now store user_id
  let store2 :=
    match dictGet? store1 user_id with
    | none => store1
    | some user_data =>
      let p1 :=
        { user_data with total_messages := user_data.total_messages + 2
                         last_active := now }
      let p2 :=
        if p1.is_first_conversation then
          { p1 with is_first_conversation := false, conversation_sessions := 1 }
        else p1
      let exchange : Exchange :=
        { exchange_id := p2.messages.length + 1
          timestamp := now
          user_message_content := user_message
          user_message_timestamp := now
          ai_response_content := ai_response
          ai_response_timestamp := now }
      dictSet store1 user_id { p2 with messages := p2.messages ++ [exchange] }
  if extracted_info ≠ ([] : InfoDict) then
    update_basic_info now store2 user_id extracted_info
  else store2

/-- Python `xs[-n:]` on a list (the whole list when it is shorter than `n`). -/
def lastN {α : Type} (xs : List α) (n : Nat) : List α :=
  xs.drop (xs.length - n)

/-- `get_conversation_context`: the last `max_messages` exchanges flattened to
alternating `(role, content)` pairs, oldest first; `[]` for an unknown user. -/
def get_conversation_context (store : Store) (user_id : String)
    (max_messages : Nat) : List (String × String) :=
  match dictGet? store user_id with
  | none => []
  | some user_data =>
    (lastN user_data.messages max_messages).flatMap fun exchange =>
      [("user", exchange.user_message_content),
       ("assistant", exchange.ai_response_content)]

/-! ## Personalized greeting -/

/-- The fixed string `get_personalized_greeting` returns for an unknown user. -/
def unknown_user_greeting : String :=
  "Bonjour! Je ne vous connais pas encore. Pouvez-vous me dire votre nom?"

/-- `basic_info.get(k, dflt)` rendered as the text an f-string would embed
(the extractor stores strings under `nom`/`name` and the like). -/
def infoText (bi : InfoDict) (k : String) (dflt : String) : String :=
  match dictGet? bi k with
  | some (.vstr s) => s
  | some (.vnat n) => toString n
  | none => dflt

/-- The name used by the greeting: `basic_info.get('nom', basic_info.get('name', ''))`. -/
def greetingName (bi : InfoDict) : String := infoText bi "nom" (infoText bi "name" "")

/-- The profession used by the greeting:
`basic_info.get('profession', basic_info.get('job', ''))`. -/
def greetingProfession (bi : InfoDict) : String :=
  infoText bi "profession" (infoText bi "job" "")

/-- The greeting line for the name (always present: personalized or generic). -/
def greetingNameParts (name : String) : List String :=
  if name ≠ "" then ["Bonjour " ++ name ++ "!"] else ["Re-bonjour!"]

/-- The optional profession-referencing line. -/
def greetingProfessionParts (profession : String) : List String :=
  if profession ≠ "" then ["Comment ça va dans le " ++ profession ++ "?"] else []

/-- The optional recency line.  `daysAgo` models the Python standard-library
computation `(datetime.now() - datetime.fromisoformat(...)).days`; it returns
`none` when `fromisoformat` raises on a malformed timestamp, in which case the
`except: pass` of the source omits the line. -/
def greetingRecencyParts (daysAgo : String → Option Int) (last_active : String) :
    List String :=
  if last_active ≠ "" then
    match daysAgo last_active with
    | none => []
    | some days =>
      if days = 0 then ["On continue notre conversation!"]
      else if days = 1 then ["Content de vous revoir après hier!"]
      else if days < 7 then ["Ça fait " ++ toString days ++ " jours! Comment allez-vous?"]
      else ["Ça fait longtemps! Quoi de neuf?"]
  else []

/-- `get_personalized_greeting`: fixed onboarding request for an unknown user;
otherwise the space-joined name, profession and recency parts. -/
def get_personalized_greeting (daysAgo : String → Option Int) (store : Store)
    (user_id : String) : String :=
  match dictGet? store user_id with
  | none => unknown_user_greeting
  | some user_data =>
    String.intercalate " "
      (greetingNameParts (greetingName user_data.basic_info) ++
       greetingProfessionParts (greetingProfession user_data.basic_info) ++
       greetingRecencyParts daysAgo user_data.last_active)

/-! ## SmartAzureAIAgent -/

/-- The configuration the agent holds after a successful `__init__`. -/
structure AgentConfig where
  endpoint : String
  api_key : String
  model_name : Option String
deriving DecidableEq, Repr

/-- Python truthiness of `os.getenv(...)`: `None` and `""` are falsy. -/
def pyTruthy : Option String → Bool
  | none => false
  | some s => s ≠ ""

/-- `SmartAzureAIAgent.__init__`: the three configuration fields are read from
the environment (the constructor parameters are never consulted); a
`ValueError` is raised when endpoint or key is missing or empty — the
deployment name is not checked. -/
def agent_init (_endpoint : Option String) (_api_key : Option String)
    (_model_name : String) (env : String → Option String) :
    Except String AgentConfig :=
  let ep := env "AZURE_INFERENCE_ENDPOINT"
  let key := env "AZURE_INFERENCE_KEY"
  let mn := env "DEPLOYMENT_NAME"
  if !pyTruthy ep || !pyTruthy key then
    .error "❌ Variables Azure manquantes dans .env"
  else
    .ok { endpoint := ep.getD "", api_key := key.getD "", model_name := mn }

/-- The fixed apology `smart_chat` returns when the external call raises. -/
def apology_message : String :=
  "Désolé, je rencontre un problème technique. Pouvez-vous réessayer?"

/-- The onboarding system prompt (text of the source's new-user template; the
console indentation of the Python triple-quoted string is not reproduced). -/
def new_user_prompt : String :=
  "Tu es un assistant IA amical qui rencontre ce nouveau utilisateur pour la première fois.\n\n" ++
  "PHASE D\x27APPRENTISSAGE - Tes objectifs:\n" ++
  "1. Te présenter chaleureusement\n" ++
  "2. Apprendre le nom de l\x27utilisateur\n" ++
  "3. Découvrir sa profession/occupation\n" ++
  "4. Connaître ses intérêts principaux\n" ++
  "5. Comprendre ses besoins\n\n" ++
  "Sois naturel, curieux mais pas intrusif. Pose UNE question à la fois.\n" ++
  "Montre de l\x27intérêt pour les réponses et rebondis dessus.\n"

/-- `_create_system_prompt`: onboarding template for a new user, else the
returning-user template with the known name, profession and hobbies inlined. -/
def create_system_prompt (_user_id : String) (is_new_user : Bool)
    (basic_info : InfoDict) : String :=
  if is_new_user then new_user_prompt
  else
    let name := infoText basic_info "nom" ""
    let profession := infoText basic_info "profession" ""
    let hobbies := infoText basic_info "hobbies" ""
    let personal_context :=
      "Tu connais déjà cet utilisateur:\n" ++
      "- Nom: " ++ name ++ "\n" ++
      "- Profession: " ++ profession ++ "\n" ++
      "- Intérêts: " ++ hobbies ++ "\n"
    "Tu es un assistant IA qui a déjà une relation établie avec cet utilisateur.\n\n" ++
    personal_context ++ "\n\n" ++
    "INSTRUCTIONS:\n" ++
    "- Salue-le personnellement avec son nom\n" ++
    "- Fais référence à vos conversations précédentes\n" ++
    "- Adapte ton style selon sa personnalité\n" ++
    "- Utilise tes connaissances sur lui pour être plus utile\n" ++
    "- Sois chaleureux comme un ami qui le retrouve\n\n" ++
    "Continue la conversation de manière naturelle et personnalisée.\n"

/-- The `(role, content)` message list `smart_chat` sends to the external API:
the adapted system prompt, the prior context for a returning user, and the
current user message. -/
def smart_chat_messages (now : String) (store : Store) (user_id : String)
    (message : String) : List (String × String) :=
  let is_new_user := !is_existing_user store user_id
  let store1 :=
    if is_new_user then create_new_user_profile now store user_id else store
  let basic_info :=
    if is_new_user then [] else get_user_basic_info store user_id
  [("system", create_system_prompt user_id is_new_user basic_info)] ++
    (if !is_new_user then get_conversation_context store1 user_id 10 else []) ++
    [("user", message)]

/-- `smart_chat`.  `derive` models `_generate_user_id` (a truncated MD5 of the
identifier — external hash library); `api` models
`self.client.complete(...)`, which returns a reply or raises.  The pair
returned is the final store state and the string handed back to the caller.
A new user's profile is created (and persisted) before the `try` block; when
the API call raises, the exchange is not recorded and the fixed apology is
returned. -/
def smart_chat (derive : String → String)
    (api : List (String × String) → Except String String) (now : String)
    (store : Store) (user_identifier : String) (message : String) :
    Store × String :=
  let user_id := derive user_identifier
  let is_new_user := !is_existing_user store user_id
  let store1 :=
    if is_new_user then create_new_user_profile now store user_id else store
  let extracted_info := extract_personal_info message
  match api (smart_chat_messages now store user_id message) with
  | .error _ => (store1, apology_message)
  | .ok ai_response =>
    (add_conversation_exchange now store1 user_id message ai_response
      (infoToDict extracted_info), ai_response)

/-! ## Persistence (`_save_all_conversations` / `_load_all_conversations`)

`json.dump` / `json.load` of the Python standard library are modelled at the
level of JSON documents (the string serialisation round-trip is the library's
own guarantee).  `save_all_conversations` builds the persisted document with
top-level keys `last_updated`, `total_users`, `conversations`;
`load_all_conversations` performs `data.get('conversations', {})` and decodes
the profiles back. -/

/-- A JSON document. -/
inductive Json where
  | null : Json
  | bool : Bool → Json
  | num : Int → Json
  | str : String → Json
  | arr : List Json → Json
  | obj : List (String × Json) → Json

/-- JSON form of a stored info value. -/
def encodeValue : Value → Json
  | .vstr s => .str s
  | .vnat n => .num n

/-- JSON form of a `basic_info` / `preferences` dict. -/
def encodeInfoDict (d : InfoDict) : Json :=
  .obj (d.map fun kv => (kv.1, encodeValue kv.2))

/-- JSON form of one exchange, as `add_conversation_exchange` lays it out. -/
def encodeExchange (e : Exchange) : Json :=
  .obj [("exchange_id", .num e.exchange_id),
        ("timestamp", .str e.timestamp),
        ("user_message", .obj [("content", .str e.user_message_content),
                               ("timestamp", .str e.user_message_timestamp)]),
        ("ai_response", .obj [("content", .str e.ai_response_content),
                              ("timestamp", .str e.ai_response_timestamp)])]

/-- JSON form of a user profile, as `create_new_user_profile` lays it out. -/
def encodeProfile (p : UserProfile) : Json :=
  .obj [("user_id", .str p.user_id),
        ("created_at", .str p.created_at),
        ("last_active", .str p.last_active),
        ("is_first_conversation", .bool p.is_first_conversation),
        ("basic_info", encodeInfoDict p.basic_info),
        ("learning_phase", .bool p.learning_phase),
        ("total_messages", .num p.total_messages),
        ("conversation_sessions", .num p.conversation_sessions),
        ("messages", .arr (p.messages.map encodeExchange)),
        ("preferences", encodeInfoDict p.preferences),
        ("personality_traits", .arr (p.personality_traits.map Json.str))]

/-- JSON form of the `conversations` mapping. -/
def encodeStore (s : Store) : Json :=
  .obj (s.map fun kv => (kv.1, encodeProfile kv.2))

/-- `_save_all_conversations`: the persisted document
`{last_updated, total_users, conversations}`. -/
def save_all_conversations (now : String) (conversations : Store) : Json :=
  .obj [("last_updated", .str now),
        ("total_users", .num conversations.length),
        ("conversations", encodeStore conversations)]

/-- Decode a JSON number back into a `Nat` counter. -/
def decodeNat : Json → Option Nat
  | .num n => if n < 0 then none else some n.toNat
  | _ => none

/-- Decode a stored info value. -/
def decodeValue : Json → Option Value
  | .str s => some (.vstr s)
  | .num n => if n < 0 then none else some (.vnat n.toNat)
  | _ => none

/-- Decode a JSON string. -/
def decodeStr : Json → Option String
  | .str s => some s
  | _ => none

/-- Decode every field of a JSON object with `dec`, keys untouched. -/
def decodePairsWith {α : Type} (dec : Json → Option α) :
    List (String × Json) → Option (List (String × α))
  | [] => some []
  | (k, j) :: rest =>
    match dec j with
    | some a => (decodePairsWith dec rest).map (fun l => (k, a) :: l)
    | none => none

/-- Decode every element of a JSON array with `dec`. -/
def decodeListWith {α : Type} (dec : Json → Option α) :
    List Json → Option (List α)
  | [] => some []
  | j :: rest =>
    match dec j with
    | some a => (decodeListWith dec rest).map (fun l => a :: l)
    | none => none

/-- Decode a `basic_info` / `preferences` dict. -/
def decodeInfoDict : Json → Option InfoDict
  | .obj fields => decodePairsWith decodeValue fields
  | _ => none

/-- Expect a string field. -/
def asStr : Option Json → Option String
  | some (.str s) => some s
  | _ => none

/-- Expect a boolean field. -/
def asBool : Option Json → Option Bool
  | some (.bool b) => some b
  | _ => none

/-- Expect a non-negative numeric field (the counters of a profile). -/
def asNat : Option Json → Option Nat
  | some (.num n) => if n < 0 then none else some n.toNat
  | _ => none

/-- Expect an array field. -/
def asArr : Option Json → Option (List Json)
  | some (.arr xs) => some xs
  | _ => none

/-- Decode a `{content, timestamp}` message object. -/
def decodeMsgObj : Json → Option (String × String)
  | .obj fields => do
    let c ← asStr (dictGet? fields "content")
    let t ← asStr (dictGet? fields "timestamp")
    pure (c, t)
  | _ => none

/-- Decode one exchange. -/
def decodeExchange : Json → Option Exchange
  | .obj fields => do
    let i ← asNat (dictGet? fields "exchange_id")
    let ts ← asStr (dictGet? fields "timestamp")
    let um ← (dictGet? fields "user_message").bind decodeMsgObj
    let ar ← (dictGet? fields "ai_response").bind decodeMsgObj
    pure { exchange_id := i, timestamp := ts,
           user_message_content := um.1, user_message_timestamp := um.2,
           ai_response_content := ar.1, ai_response_timestamp := ar.2 }
  | _ => none

/-- Decode one user profile. -/
def decodeProfile : Json → Option UserProfile
  | .obj fields => do
    let uid ← asStr (dictGet? fields "user_id")
    let ca ← asStr (dictGet? fields "created_at")
    let la ← asStr (dictGet? fields "last_active")
    let fc ← asBool (dictGet? fields "is_first_conversation")
    let bi ← (dictGet? fields "basic_info").bind decodeInfoDict
    let lp ← asBool (dictGet? fields "learning_phase")
    let tm ← asNat (dictGet? fields "total_messages")
    let sc ← asNat (dictGet? fields "conversation_sessions")
    let ms ← (asArr (dictGet? fields "messages")).bind
      (decodeListWith decodeExchange)
    let pr ← (dictGet? fields "preferences").bind decodeInfoDict
    let ts2 ← (asArr (dictGet? fields "personality_traits")).bind
      (decodeListWith decodeStr)
    pure { user_id := uid, created_at := ca, last_active := la,
           is_first_conversation := fc, basic_info := bi,
           learning_phase := lp, total_messages := tm,
           conversation_sessions := sc, messages := ms,
           preferences := pr, personality_traits := ts2 }
  | _ => none

/-- Decode the `conversations` mapping. -/
def decodeStore : Json → Option Store
  | .obj fields => decodePairsWith decodeProfile fields
  | _ => none

/-- The number of distinct keys of an info dict (`len(d)` for a Python dict). -/
def keyCount (d : InfoDict) : Nat := (d.map Prod.fst).dedup.length

/-- Whether the constructor completed (no exception escaped). -/
def isOkExcept {ε α : Type} : Except ε α → Bool
  | .ok _ => true
  | .error _ => false

/-- `data.get(k, dflt)` on a JSON document. -/
def jsonGetD (j : Json) (k : String) (dflt : Json) : Json :=
  match j with
  | .obj fields => (dictGet? fields k).getD dflt
  | _ => dflt

/-- `_load_all_conversations` on a parsed document:
`data.get('conversations', {})`, decoded back into profiles. -/
def load_all_conversations (doc : Json) : Option Store :=
  decodeStore (jsonGetD doc "conversations" (.obj []))

/-! ## Association-list lemmas -/

theorem dictGet?_dictSet_self {α : Type} (l : List (String × α)) (k : String) (v : α) :
    dictGet? (dictSet l k v) k = some v := by
  induction l with
  | nil => simp [dictSet, dictGet?]
  | cons hd tl ih =>
    by_cases h : hd.1 = k
    · simp [dictSet, h, dictGet?]
    · simp [dictSet, h, dictGet?, ih]

theorem mem_keys_dictSet {α : Type} (l : List (String × α)) (k a : String) (v : α)
    (h : a ∈ (dictSet l k v).map Prod.fst) : a ∈ l.map Prod.fst ∨ a = k := by
  induction l with
  | nil =>
    simp only [dictSet, List.map_cons, List.map_nil, List.mem_singleton] at h
    exact Or.inr h
  | cons hd tl ih =>
    by_cases hk : hd.1 = k
    · simp only [dictSet, if_pos hk, List.map_cons, List.mem_cons] at h
      rcases h with h | h
      · exact Or.inr h
      · exact Or.inl (List.mem_cons_of_mem _ h)
    · simp only [dictSet, if_neg hk, List.map_cons, List.mem_cons] at h
      rcases h with h | h
      · exact Or.inl (h ▸ List.mem_cons_self _ _)
      · rcases ih h with h' | h'
        · exact Or.inl (List.mem_cons_of_mem _ h')
        · exact Or.inr h'

theorem nodup_keys_dictSet {α : Type} (l : List (String × α)) (k : String) (v : α)
    (h : (l.map Prod.fst).Nodup) : ((dictSet l k v).map Prod.fst).Nodup := by
  induction l with
  | nil => simp [dictSet]
  | cons hd tl ih =>
    simp only [List.map_cons, List.nodup_cons] at h
    by_cases hk : hd.1 = k
    · simp only [dictSet, if_pos hk, List.map_cons, List.nodup_cons]
      exact ⟨hk ▸ h.1, h.2⟩
    · simp only [dictSet, if_neg hk, List.map_cons, List.nodup_cons]
      refine ⟨fun hm => ?_, ih h.2⟩
      rcases mem_keys_dictSet tl k hd.1 v hm with h' | h'
      · exact h.1 h'
      · exact hk h'

theorem length_le_dictSet {α : Type} (l : List (String × α)) (k : String) (v : α) :
    l.length ≤ (dictSet l k v).length := by
  induction l with
  | nil => simp [dictSet]
  | cons hd tl ih =>
    by_cases hk : hd.1 = k
    · simp [dictSet, hk]
    · simpa [dictSet, hk] using ih

theorem nodup_keys_dictUpdate (d m : InfoDict)
    (h : (d.map Prod.fst).Nodup) : ((dictUpdate d m).map Prod.fst).Nodup := by
  induction m generalizing d with
  | nil => simpa [dictUpdate]
  | cons hd tl ih =>
    simpa [dictUpdate] using ih (dictSet d hd.1 hd.2) (nodup_keys_dictSet d hd.1 hd.2 h)

theorem length_le_dictUpdate (d m : InfoDict) :
    d.length ≤ (dictUpdate d m).length := by
  induction m generalizing d with
  | nil => simp [dictUpdate]
  | cons hd tl ih =>
    calc d.length ≤ (dictSet d hd.1 hd.2).length := length_le_dictSet d hd.1 hd.2
    _ ≤ _ := by simpa [dictUpdate] using ih (dictSet d hd.1 hd.2)

theorem keyCount_eq_length (d : InfoDict) (h : (d.map Prod.fst).Nodup) :
    keyCount d = d.length := by
  rw [keyCount, List.dedup_eq_self.mpr h, List.length_map]

theorem pyTruthy_eq_some (o : Option String) (h : pyTruthy o = true) :
    o = some (o.getD "") := by
  cases o with
  | none => simp [pyTruthy] at h
  | some s => rfl

/-! ## Claim theorems -/

/-- C5: `extract_personal_info "je m'appelle Marie"` returns exactly
`{nom: "Marie"}`; `extract_personal_info "j'ai 25 ans"` includes `{age: 25}`;
`extract_personal_info "j'ai 150 ans"` has no `age` key, the captured age
being accepted only inside `[10, 100]` (boundary behaviour of `ageValid`
included). -/
theorem extract_personal_info_examples :
    extract_personal_info "je m\x27appelle Marie" =
      { nom := some "Marie", profession := none, age := none, ville := none,
        hobbies := none } ∧
    (extract_personal_info "j\x27ai 25 ans").age = some 25 ∧
    extract_personal_info "j\x27ai 150 ans" =
      { nom := none, profession := none, age := none, ville := none,
        hobbies := none } ∧
    ageValid "9" = false ∧ ageValid "10" = true ∧ ageValid "100" = true ∧
    ageValid "101" = false := by
  refine ⟨by decide, by decide, by decide, by decide, by decide, by decide, by decide⟩

/-- C6: each extractor category is the first-match-wins loop `extractCategory`
over its pattern list, and in that loop the FIRST pattern that matches settles
the category: its capture is validated, and on validation failure the category
is simply absent — the remaining patterns are never consulted. -/
theorem extractCategory_first_match_wins :
    (∀ msg : String,
      (extract_personal_info msg).nom =
        extractCategory (fun _ => true) pyCapitalize name_patterns
          (pyLower msg).toList ∧
      (extract_personal_info msg).profession =
        extractCategory jobValid pyStrip job_patterns (pyLower msg).toList ∧
      (extract_personal_info msg).age =
        extractCategory ageValid digitsToNat age_patterns (pyLower msg).toList ∧
      (extract_personal_info msg).ville =
        extractCategory cityValid (fun c => pyTitle (pyStrip c)) city_patterns
          (pyLower msg).toList ∧
      (extract_personal_info msg).hobbies =
        extractCategory hobbyValid pyStrip hobby_patterns (pyLower msg).toList) ∧
    (∀ {α : Type} (validate : String → Bool) (transform : String → α)
        (p : List Tok) (rest : List (List Tok)) (cs : List Char) (cap : String),
      searchChars p cs = some cap →
      extractCategory validate transform (p :: rest) cs =
        if validate cap then some (transform cap) else none) := by
  constructor
  · exact fun msg => ⟨rfl, rfl, rfl, rfl, rfl⟩
  · intro α validate transform p rest cs cap h
    simp [extractCategory, h]

/-- C6 witness: on `"je travaille en x"` the first profession pattern matches
with capture `"x"`, the capture fails validation (length 1 ≤ 2), and the
profession category is absent even though the loop had four more patterns. -/
theorem extractCategory_first_match_wins_witness :
    searchChars job_patterns.headI "je travaille en x".toList = some "x" ∧
    jobValid "x" = false ∧
    extractCategory jobValid pyStrip job_patterns "je travaille en x".toList =
      none := by
  refine ⟨by decide, by decide, ?_⟩
  have h := extractCategory_first_match_wins.2 jobValid pyStrip
    job_patterns.headI job_patterns.tail "je travaille en x".toList "x" (by decide)
  rw [show job_patterns.headI :: job_patterns.tail = job_patterns from rfl] at h
  rw [h]
  decide

/-- C1 counterexample: with endpoint and key present but `DEPLOYMENT_NAME`
absent from the environment, `SmartAzureAIAgent.__init__` succeeds (the source
only checks `self.endpoint` and `self.api_key`), contradicting the claim that
a missing model/deployment name aborts construction. -/
theorem agent_init_missing_model_still_ok :
    agent_init none none "gpt-4o"
      (fun k => if k = "AZURE_INFERENCE_ENDPOINT" then some "https://ep" else
        if k = "AZURE_INFERENCE_KEY" then some "secret" else none) =
      .ok { endpoint := "https://ep", api_key := "secret", model_name := none } ∧
    (fun k => if k = "AZURE_INFERENCE_ENDPOINT" then some "https://ep" else
        if k = "AZURE_INFERENCE_KEY" then some "secret" else none)
      "DEPLOYMENT_NAME" = none := by
  exact ⟨rfl, rfl⟩

/-- C1 (amended): construction fails iff the endpoint or the API key is
missing or empty in the environment; a missing deployment name does not abort
construction — the agent is produced with `model_name = None`. -/
theorem agent_init_fail_iff :
    ∀ (ep ak : Option String) (mn : String) (env : String → Option String),
      (isOkExcept (agent_init ep ak mn env) = true ↔
        pyTruthy (env "AZURE_INFERENCE_ENDPOINT") = true ∧
        pyTruthy (env "AZURE_INFERENCE_KEY") = true) ∧
      (∀ e k : String, env "AZURE_INFERENCE_ENDPOINT" = some e → e ≠ "" →
        env "AZURE_INFERENCE_KEY" = some k → k ≠ "" →
        agent_init ep ak mn env =
          .ok { endpoint := e, api_key := k,
                model_name := env "DEPLOYMENT_NAME" }) := by
  intro ep ak mn env
  constructor
  · by_cases h1 : pyTruthy (env "AZURE_INFERENCE_ENDPOINT") <;>
      by_cases h2 : pyTruthy (env "AZURE_INFERENCE_KEY") <;>
      simp [agent_init, isOkExcept, h1, h2]
  · intro e k he hne hk hnk
    have t1 : pyTruthy (env "AZURE_INFERENCE_ENDPOINT") = true := by
      simp [pyTruthy, he, hne]
    have t2 : pyTruthy (env "AZURE_INFERENCE_KEY") = true := by
      simp [pyTruthy, hk, hnk]
    simp [agent_init, t1, t2, he, hk]
    exact ⟨by simp [pyTruthy, hne], by simp [pyTruthy, hnk]⟩

/-- C1 witness: a concrete environment with endpoint `"e"`, key `"k"` and no
deployment name yields a constructed agent with `model_name = None`. -/
theorem agent_init_fail_iff_witness :
    agent_init none none "gpt-4o"
      (fun k => if k = "AZURE_INFERENCE_ENDPOINT" then some "e" else
        if k = "AZURE_INFERENCE_KEY" then some "k" else none) =
      .ok { endpoint := "e", api_key := "k", model_name := none } :=
  (agent_init_fail_iff none none "gpt-4o" _).2 "e" "k" rfl (by decide) rfl
    (by decide)

/-- C10: the constructor parameters `endpoint`, `api_key`, `model_name` of
`SmartAzureAIAgent.__init__` are ignored — the result is the same for any
argument values — and a successfully constructed agent's configuration comes
exclusively from the environment variables, with
`model_name = env("DEPLOYMENT_NAME")` (so `None` when that variable is
absent, and the default `"gpt-4o"` never takes effect). -/
theorem agent_init_ignores_params :
    ∀ (ep ak : Option String) (mn : String) (ep2 ak2 : Option String)
      (mn2 : String) (env : String → Option String),
      agent_init ep ak mn env = agent_init ep2 ak2 mn2 env ∧
      (∀ cfg : AgentConfig, agent_init ep ak mn env = .ok cfg →
        env "AZURE_INFERENCE_ENDPOINT" = some cfg.endpoint ∧
        env "AZURE_INFERENCE_KEY" = some cfg.api_key ∧
        cfg.model_name = env "DEPLOYMENT_NAME") := by
  intro ep ak mn ep2 ak2 mn2 env
  refine ⟨rfl, ?_⟩
  intro cfg h
  by_cases h1 : pyTruthy (env "AZURE_INFERENCE_ENDPOINT")
  · by_cases h2 : pyTruthy (env "AZURE_INFERENCE_KEY")
    · simp [agent_init, h1, h2] at h
      rcases h with rfl
      exact ⟨pyTruthy_eq_some _ h1, pyTruthy_eq_some _ h2, rfl⟩
    · simp [agent_init, h1, h2] at h
  · simp [agent_init, h1] at h

/-- C10 witness: with both parameters supplied and the default model name, the
constructed configuration still mirrors the environment exactly. -/
theorem agent_init_ignores_params_witness :
    agent_init (some "ignored-ep") (some "ignored-key") "gpt-4o"
      (fun k => if k = "AZURE_INFERENCE_ENDPOINT" then some "e" else
        if k = "AZURE_INFERENCE_KEY" then some "k" else none) =
      agent_init none none "other"
        (fun k => if k = "AZURE_INFERENCE_ENDPOINT" then some "e" else
          if k = "AZURE_INFERENCE_KEY" then some "k" else none) ∧
    ((fun k => if k = "AZURE_INFERENCE_ENDPOINT" then some "e" else
        if k = "AZURE_INFERENCE_KEY" then some "k" else none)
      "AZURE_INFERENCE_ENDPOINT" = some "e" ∧
     (fun k => if k = "AZURE_INFERENCE_ENDPOINT" then some "e" else
        if k = "AZURE_INFERENCE_KEY" then some "k" else none)
      "AZURE_INFERENCE_KEY" = some "k" ∧
     (none : Option String) =
       (fun k => if k = "AZURE_INFERENCE_ENDPOINT" then some "e" else
          if k = "AZURE_INFERENCE_KEY" then some "k" else none)
        "DEPLOYMENT_NAME") := by
  have h := agent_init_ignores_params (some "ignored-ep") (some "ignored-key")
    "gpt-4o" none none "other"
    (fun k => if k = "AZURE_INFERENCE_ENDPOINT" then some "e" else
      if k = "AZURE_INFERENCE_KEY" then some "k" else none)
  exact ⟨h.1, h.2 { endpoint := "e", api_key := "k", model_name := none } rfl⟩

/-! ## Persistence round-trip lemmas (for C7) -/

theorem decodeValue_encodeValue (v : Value) :
    decodeValue (encodeValue v) = some v := by
  cases v with
  | vstr s => rfl
  | vnat n =>
    simp [encodeValue, decodeValue, Int.toNat_ofNat]

theorem decodePairsWith_map {α : Type} (dec : Json → Option α) (enc : α → Json)
    (l : List (String × α)) (h : ∀ x : α, dec (enc x) = some x) :
    decodePairsWith dec (l.map fun kv => (kv.1, enc kv.2)) = some l := by
  induction l with
  | nil => rfl
  | cons hd tl ih =>
    simp [decodePairsWith, h hd.2, ih]

theorem decodeListWith_map {α : Type} (dec : Json → Option α) (enc : α → Json)
    (l : List α) (h : ∀ x : α, dec (enc x) = some x) :
    decodeListWith dec (l.map enc) = some l := by
  induction l with
  | nil => rfl
  | cons hd tl ih =>
    simp [decodeListWith, h hd, ih]

theorem decodeInfoDict_encodeInfoDict (d : InfoDict) :
    decodeInfoDict (encodeInfoDict d) = some d :=
  decodePairsWith_map decodeValue encodeValue d decodeValue_encodeValue

theorem decodeStr_str (s : String) : decodeStr (Json.str s) = some s := rfl

theorem asNat_natCast (n : Nat) : asNat (some (.num (n : Int))) = some n := by
  have h : ¬((n : Int) < 0) := by omega
  simp [asNat, h]

theorem decodeExchange_encodeExchange (e : Exchange) :
    decodeExchange (encodeExchange e) = some e := by
  simp [encodeExchange, decodeExchange, decodeMsgObj, dictGet?, asStr,
    asNat_natCast, Option.bind]

theorem decodeProfile_encodeProfile (p : UserProfile) :
    decodeProfile (encodeProfile p) = some p := by
  simp [encodeProfile, decodeProfile, dictGet?, asStr, asBool, asArr,
    asNat_natCast, decodeInfoDict_encodeInfoDict,
    decodeListWith_map decodeExchange encodeExchange p.messages
      decodeExchange_encodeExchange,
    decodeListWith_map decodeStr Json.str p.personality_traits decodeStr_str,
    Option.bind]

theorem decodeStore_encodeStore (s : Store) :
    decodeStore (encodeStore s) = some s :=
  decodePairsWith_map decodeProfile encodeProfile s decodeProfile_encodeProfile

/-- C7: saving a store to the persisted document
`{last_updated, total_users, conversations}` and loading that document back
reproduces an identical userId → UserProfile mapping (the load path extracts
exactly the `conversations` field the save path wrote). -/
theorem save_load_round_trip :
    ∀ (now : String) (conversations : Store),
      load_all_conversations (save_all_conversations now conversations) =
        some conversations := by
  intro now conversations
  have hget : jsonGetD (save_all_conversations now conversations)
      "conversations" (.obj []) = encodeStore conversations := rfl
  rw [load_all_conversations, hget, decodeStore_encodeStore]

/-! ## Store mutation lemmas (for C3 and C4) -/

theorem update_basic_info_existing (now : String) (store : Store) (uid : String)
    (ni : InfoDict) (p : UserProfile) (h : dictGet? store uid = some p) :
    update_basic_info now store uid ni =
      dictSet store uid
        { p with basic_info := dictUpdate p.basic_info ni,
                 last_active := now,
                 learning_phase :=
                   if 3 ≤ (dictUpdate p.basic_info ni).length then false
                   else p.learning_phase } := by
  simp [update_basic_info, is_existing_user, h]

theorem dictGet?_update_existing (now : String) (store : Store) (uid : String)
    (ni : InfoDict) (p : UserProfile) (h : dictGet? store uid = some p) :
    dictGet? (update_basic_info now store uid ni) uid =
      some { p with basic_info := dictUpdate p.basic_info ni,
                    last_active := now,
                    learning_phase :=
                      if 3 ≤ (dictUpdate p.basic_info ni).length then false
                      else p.learning_phase } := by
  rw [update_basic_info_existing now store uid ni p h, dictGet?_dictSet_self]

theorem add_existing_empty_eq (now : String) (store : Store) (uid um ar : String)
    (p : UserProfile) (h : dictGet? store uid = some p) :
    add_conversation_exchange now store uid um ar [] =
      dictSet store uid
        (if p.is_first_conversation then
          { p with total_messages := p.total_messages + 2, last_active := now,
                   is_first_conversation := false, conversation_sessions := 1,
                   messages := p.messages ++
                     [{ exchange_id := p.messages.length + 1, timestamp := now,
                        user_message_content := um, user_message_timestamp := now,
                        ai_response_content := ar, ai_response_timestamp := now }] }
        else
          { p with total_messages := p.total_messages + 2, last_active := now,
                   messages := p.messages ++
                     [{ exchange_id := p.messages.length + 1, timestamp := now,
                        user_message_content := um, user_message_timestamp := now,
                        ai_response_content := ar,
                        ai_response_timestamp := now }] }) := by
  by_cases hf : p.is_first_conversation <;>
    simp [add_conversation_exchange, is_existing_user, h, hf]

theorem add_existing_nonempty_eq (now : String) (store : Store)
    (uid um ar : String) (info : InfoDict) (p : UserProfile)
    (h : dictGet? store uid = some p) (hi : info ≠ ([] : InfoDict)) :
    add_conversation_exchange now store uid um ar info =
      update_basic_info now
        (dictSet store uid
          (if p.is_first_conversation then
            { p with total_messages := p.total_messages + 2, last_active := now,
                     is_first_conversation := false, conversation_sessions := 1,
                     messages := p.messages ++
                       [{ exchange_id := p.messages.length + 1, timestamp := now,
                          user_message_content := um,
                          user_message_timestamp := now,
                          ai_response_content := ar,
                          ai_response_timestamp := now }] }
          else
            { p with total_messages := p.total_messages + 2, last_active := now,
                     messages := p.messages ++
                       [{ exchange_id := p.messages.length + 1, timestamp := now,
                          user_message_content := um,
                          user_message_timestamp := now,
                          ai_response_content := ar,
                          ai_response_timestamp := now }] }))
        uid info := by
  by_cases hf : p.is_first_conversation <;>
    simp [add_conversation_exchange, is_existing_user, h, hf, hi]

theorem dictGet?_add_existing (now : String) (store : Store) (uid um ar : String)
    (info : InfoDict) (p : UserProfile) (h : dictGet? store uid = some p) :
    ∃ q, dictGet? (add_conversation_exchange now store uid um ar info) uid =
        some q ∧
      q.total_messages = p.total_messages + 2 ∧
      q.is_first_conversation = false ∧
      q.conversation_sessions =
        (if p.is_first_conversation then 1 else p.conversation_sessions) ∧
      q.messages = p.messages ++
        [{ exchange_id := p.messages.length + 1, timestamp := now,
           user_message_content := um, user_message_timestamp := now,
           ai_response_content := ar, ai_response_timestamp := now }] ∧
      q.basic_info = dictUpdate p.basic_info info ∧
      (p.learning_phase = false → q.learning_phase = false) ∧
      ((p.basic_info.map Prod.fst).Nodup → (q.basic_info.map Prod.fst).Nodup) := by
  by_cases hi : info = ([] : InfoDict)
  · subst hi
    rw [add_existing_empty_eq now store uid um ar p h]
    refine ⟨_, dictGet?_dictSet_self _ _ _, ?_, ?_, ?_, ?_, ?_, ?_, ?_⟩ <;>
      by_cases hf : p.is_first_conversation <;> simp [hf, dictUpdate]
  · rw [add_existing_nonempty_eq now store uid um ar info p h hi]
    rw [dictGet?_update_existing _ _ _ _ _ (dictGet?_dictSet_self _ _ _)]
    refine ⟨_, rfl, ?_, ?_, ?_, ?_, ?_, ?_, ?_⟩
    · by_cases hf : p.is_first_conversation <;> simp [hf]
    · by_cases hf : p.is_first_conversation <;> simp [hf]
    · by_cases hf : p.is_first_conversation <;> simp [hf]
    · by_cases hf : p.is_first_conversation <;> simp [hf]
    · by_cases hf : p.is_first_conversation <;> simp [hf]
    · intro hlp
      by_cases hf : p.is_first_conversation <;>
        by_cases h3 : 3 ≤ (dictUpdate p.basic_info info).length <;>
        simp [hf, h3, hlp]
    · intro hn
      by_cases hf : p.is_first_conversation <;>
        simpa [hf] using nodup_keys_dictUpdate _ info hn

/-- C3: `add_conversation_exchange` twice on a freshly created user yields
`total_messages = 4`, `conversation_sessions = 1` and exactly the exchange ids
`[1, 2]` in insertion order; in general every call adds 2 to
`total_messages`, appends the next 1-based sequential exchange id (so ids
stay gap-free), and flips `is_first_conversation` / sets
`conversation_sessions = 1` on the first call only. -/
theorem add_conversation_exchange_spec :
    (∀ (store0 : Store) (uid t0 t1 t2 um1 ar1 um2 ar2 : String),
      (dictGet? (add_conversation_exchange t2
          (add_conversation_exchange t1 (create_new_user_profile t0 store0 uid)
            uid um1 ar1 []) uid um2 ar2 []) uid).map
        (fun q => (q.total_messages, q.conversation_sessions,
          q.messages.map (fun ex => ex.exchange_id))) =
        some (4, 1, [1, 2])) ∧
    (∀ (now : String) (store : Store) (uid um ar : String) (info : InfoDict)
      (p : UserProfile), dictGet? store uid = some p →
      ∃ q, dictGet? (add_conversation_exchange now store uid um ar info) uid =
          some q ∧
        q.total_messages = p.total_messages + 2 ∧
        q.messages.map (fun ex => ex.exchange_id) =
          p.messages.map (fun ex => ex.exchange_id) ++ [p.messages.length + 1] ∧
        q.messages.length = p.messages.length + 1 ∧
        (p.is_first_conversation = true →
          q.is_first_conversation = false ∧ q.conversation_sessions = 1) ∧
        (p.is_first_conversation = false →
          q.is_first_conversation = false ∧
          q.conversation_sessions = p.conversation_sessions) ∧
        (p.messages.map (fun ex => ex.exchange_id) =
            List.range' 1 p.messages.length →
          q.messages.map (fun ex => ex.exchange_id) =
            List.range' 1 q.messages.length)) := by
  have general : ∀ (now : String) (store : Store) (uid um ar : String)
      (info : InfoDict) (p : UserProfile), dictGet? store uid = some p →
      ∃ q, dictGet? (add_conversation_exchange now store uid um ar info) uid =
          some q ∧
        q.total_messages = p.total_messages + 2 ∧
        q.messages.map (fun ex => ex.exchange_id) =
          p.messages.map (fun ex => ex.exchange_id) ++ [p.messages.length + 1] ∧
        q.messages.length = p.messages.length + 1 ∧
        (p.is_first_conversation = true →
          q.is_first_conversation = false ∧ q.conversation_sessions = 1) ∧
        (p.is_first_conversation = false →
          q.is_first_conversation = false ∧
          q.conversation_sessions = p.conversation_sessions) ∧
        (p.messages.map (fun ex => ex.exchange_id) =
            List.range' 1 p.messages.length →
          q.messages.map (fun ex => ex.exchange_id) =
            List.range' 1 q.messages.length) := by
    intro now store uid um ar info p h
    obtain ⟨q, hget, htot, hfirst, hsess, hmsgs, _, _, _⟩ :=
      dictGet?_add_existing now store uid um ar info p h
    refine ⟨q, hget, htot, ?_, ?_, ?_, ?_, ?_⟩
    · simp [hmsgs]
    · simp [hmsgs]
    · intro hf; exact ⟨hfirst, by simp [hsess, hf]⟩
    · intro hf; exact ⟨hfirst, by simp [hsess, hf]⟩
    · intro hrange
      have hlen : q.messages.length = p.messages.length + 1 := by simp [hmsgs]
      rw [hlen, List.range'_concat]
      simp [hmsgs, hrange, Nat.add_comm]
  refine ⟨?_, general⟩
  intro store0 uid t0 t1 t2 um1 ar1 um2 ar2
  have h0 : dictGet? (create_new_user_profile t0 store0 uid) uid =
      some (freshProfile t0 uid) := dictGet?_dictSet_self store0 uid _
  obtain ⟨q1, hq1, ht1, hm1, hl1, hf1, _, _⟩ :=
    general t1 (create_new_user_profile t0 store0 uid) uid um1 ar1 [] _ h0
  obtain ⟨hq1f, hq1s⟩ := hf1 rfl
  obtain ⟨q2, hq2, ht2, hm2, hl2, _, hf2, _⟩ :=
    general t2 _ uid um2 ar2 [] q1 hq1
  obtain ⟨hq2f, hq2s⟩ := hf2 hq1f
  rw [hq2]
  have e1 : q1.messages.map (fun ex => ex.exchange_id) = [1] := by
    simpa [freshProfile] using hm1
  have e2 : q1.messages.length = 1 := by simpa [freshProfile] using hl1
  simp [ht2, ht1, hq2s, hq1s, hm2, e1, e2, freshProfile]

/-- C3 witness: an exchange appended for an already known user with two prior
messages and sessions already counted. -/
theorem add_conversation_exchange_spec_witness :
    ∃ q, dictGet? (add_conversation_exchange "t1"
        [("u", freshProfile "t0" "u")] "u" "salut" "bonjour" []) "u" = some q ∧
      q.total_messages = (freshProfile "t0" "u").total_messages + 2 ∧
      q.messages.map (fun ex => ex.exchange_id) =
        (freshProfile "t0" "u").messages.map (fun ex => ex.exchange_id) ++
          [(freshProfile "t0" "u").messages.length + 1] ∧
      q.messages.length = (freshProfile "t0" "u").messages.length + 1 ∧
      ((freshProfile "t0" "u").is_first_conversation = true →
        q.is_first_conversation = false ∧ q.conversation_sessions = 1) ∧
      ((freshProfile "t0" "u").is_first_conversation = false →
        q.is_first_conversation = false ∧
        q.conversation_sessions = (freshProfile "t0" "u").conversation_sessions) ∧
      ((freshProfile "t0" "u").messages.map (fun ex => ex.exchange_id) =
          List.range' 1 (freshProfile "t0" "u").messages.length →
        q.messages.map (fun ex => ex.exchange_id) =
          List.range' 1 q.messages.length) :=
  add_conversation_exchange_spec.2 "t1" [("u", freshProfile "t0" "u")] "u"
    "salut" "bonjour" [] (freshProfile "t0" "u") rfl

theorem fold_update_inv (uid : String) (upds : List (String × InfoDict)) :
    ∀ (store : Store) (p : UserProfile), dictGet? store uid = some p →
      (p.basic_info.map Prod.fst).Nodup →
      (p.learning_phase = true ↔ p.basic_info.length < 3) →
      ∃ q, dictGet?
          (upds.foldl (fun st u => update_basic_info u.1 st uid u.2) store)
          uid = some q ∧
        (q.basic_info.map Prod.fst).Nodup ∧
        (q.learning_phase = true ↔ q.basic_info.length < 3) := by
  induction upds with
  | nil => exact fun store p h hn hflag => ⟨p, h, hn, hflag⟩
  | cons hd tl ih =>
    intro store p h hn hflag
    simp only [List.foldl_cons]
    refine ih _ _ (dictGet?_update_existing hd.1 store uid hd.2 p h) ?_ ?_
    · exact nodup_keys_dictUpdate _ _ hn
    · have hle : p.basic_info.length ≤ (dictUpdate p.basic_info hd.2).length :=
        length_le_dictUpdate _ _
      by_cases h3 : 3 ≤ (dictUpdate p.basic_info hd.2).length
      · simp [h3]
      · have hlt : (dictUpdate p.basic_info hd.2).length < 3 := by omega
        have hold : p.basic_info.length < 3 := by omega
        simp [h3, hflag, hold, hlt]

/-- C4 counterexample: once `learning_phase` has become false,
`create_new_user_profile` invoked again for the same id (a store operation the
claim quantifies over) replaces the profile with a fresh one whose
`learning_phase` is true again. -/
theorem create_resets_learning_phase :
    ((dictGet? (update_basic_info "t1" (create_new_user_profile "t0" [] "u") "u"
        [("a", .vstr "1"), ("b", .vstr "2"), ("c", .vstr "3")]) "u").map
      (fun p => p.learning_phase)) = some false ∧
    ((dictGet? (create_new_user_profile "t2"
        (update_basic_info "t1" (create_new_user_profile "t0" [] "u") "u"
          [("a", .vstr "1"), ("b", .vstr "2"), ("c", .vstr "3")]) "u") "u").map
      (fun p => p.learning_phase)) = some true := by
  exact ⟨by decide, by decide⟩

/-- C4 (amended): `learning_phase` behaves monotonically under the
profile-mutating operations `update_basic_info` and
`add_conversation_exchange`: a new profile starts with `learning_phase = true`;
after any sequence of `update_basic_info` calls on a newly created profile,
`learning_phase` is false iff `basic_info` holds at least 3 distinct keys
(equivalently, has ever reached 3, since keys are never removed); and once
false the flag never becomes true again under those two operations.
`create_new_user_profile` invoked for an id that already exists, however,
replaces the profile with a fresh one whose flag is true (every call site in
the source guards it behind an absence check). -/
theorem learning_phase_monotone :
    (∀ now uid : String, (freshProfile now uid).learning_phase = true) ∧
    (∀ (uid t0 : String) (store0 : Store) (upds : List (String × InfoDict)),
      ∃ q, dictGet?
          (upds.foldl (fun st u => update_basic_info u.1 st uid u.2)
            (create_new_user_profile t0 store0 uid)) uid = some q ∧
        (q.learning_phase = false ↔ 3 ≤ keyCount q.basic_info)) ∧
    (∀ (now : String) (store : Store) (uid : String) (ni : InfoDict)
      (p : UserProfile), dictGet? store uid = some p →
      p.learning_phase = false →
      ∃ q, dictGet? (update_basic_info now store uid ni) uid = some q ∧
        q.learning_phase = false) ∧
    (∀ (now : String) (store : Store) (uid um ar : String) (info : InfoDict)
      (p : UserProfile), dictGet? store uid = some p →
      p.learning_phase = false →
      ∃ q, dictGet? (add_conversation_exchange now store uid um ar info) uid =
          some q ∧ q.learning_phase = false) := by
  refine ⟨fun _ _ => rfl, ?_, ?_, ?_⟩
  · intro uid t0 store0 upds
    obtain ⟨q, hq, hn, hflag⟩ := fold_update_inv uid upds
      (create_new_user_profile t0 store0 uid) (freshProfile t0 uid)
      (dictGet?_dictSet_self store0 uid _) (by simp [freshProfile])
      (by simp [freshProfile])
    refine ⟨q, hq, ?_⟩
    rw [keyCount_eq_length q.basic_info hn]
    cases hl : q.learning_phase with
    | true =>
      have hlt : q.basic_info.length < 3 := hflag.mp hl
      simp
      omega
    | false =>
      constructor
      · intro _
        by_contra hc
        exact absurd (hflag.mpr (by omega)) (by simp [hl])
      · simp
  · intro now store uid ni p h hlp
    refine ⟨_, dictGet?_update_existing now store uid ni p h, ?_⟩
    by_cases h3 : 3 ≤ (dictUpdate p.basic_info ni).length <;> simp [h3, hlp]
  · intro now store uid um ar info p h hlp
    obtain ⟨q, hq, _, _, _, _, _, hmono, _⟩ :=
      dictGet?_add_existing now store uid um ar info p h
    exact ⟨q, hq, hmono hlp⟩

/-- C4 witness: three single-key updates on a fresh profile end the learning
phase; a fourth update that only overwrites an existing key keeps it ended. -/
theorem learning_phase_monotone_witness :
    (freshProfile "t0" "u").learning_phase = true ∧
    (∃ q, dictGet?
        ([(("t1" : String), [(("a" : String), Value.vstr "1")]),
          ("t2", [("b", Value.vstr "2")]), ("t3", [("c", Value.vstr "3")]),
          ("t4", [("a", Value.vstr "9")])].foldl
          (fun st u => update_basic_info u.1 st "u" u.2)
          (create_new_user_profile "t0" [] "u")) "u" = some q ∧
      (q.learning_phase = false ↔ 3 ≤ keyCount q.basic_info)) ∧
    (∃ q, dictGet? (update_basic_info "t5"
        [("u", { freshProfile "t0" "u" with learning_phase := false })] "u"
        [("a", Value.vstr "1")]) "u" = some q ∧ q.learning_phase = false) ∧
    (∃ q, dictGet? (add_conversation_exchange "t5"
        [("u", { freshProfile "t0" "u" with learning_phase := false })] "u"
        "salut" "bonjour" []) "u" = some q ∧ q.learning_phase = false) :=
  ⟨learning_phase_monotone.1 "t0" "u",
   learning_phase_monotone.2.1 "u" "t0" []
     [("t1", [("a", Value.vstr "1")]), ("t2", [("b", Value.vstr "2")]),
      ("t3", [("c", Value.vstr "3")]), ("t4", [("a", Value.vstr "9")])],
   learning_phase_monotone.2.2.1 "t5"
     [("u", { freshProfile "t0" "u" with learning_phase := false })] "u"
     [("a", Value.vstr "1")] _ rfl rfl,
   learning_phase_monotone.2.2.2 "t5"
     [("u", { freshProfile "t0" "u" with learning_phase := false })] "u"
     "salut" "bonjour" [] _ rfl rfl⟩

/-- C2: whenever the external chat-completion call inside `smart_chat` raises,
`smart_chat` returns the fixed apology string, the user's `messages` sequence
is unchanged (no exchange appended), and no extracted info is merged into
`basic_info`. -/
theorem smart_chat_failure_no_persist :
    ∀ (derive : String → String)
      (api : List (String × String) → Except String String)
      (now : String) (store : Store) (user_identifier message e : String),
      api (smart_chat_messages now store (derive user_identifier) message) =
        .error e →
      (smart_chat derive api now store user_identifier message).2 =
        apology_message ∧
      ((dictGet? (smart_chat derive api now store user_identifier message).1
          (derive user_identifier)).map (fun p => p.messages)).getD [] =
        ((dictGet? store (derive user_identifier)).map
          (fun p => p.messages)).getD [] ∧
      ((dictGet? (smart_chat derive api now store user_identifier message).1
          (derive user_identifier)).map (fun p => p.basic_info)).getD [] =
        ((dictGet? store (derive user_identifier)).map
          (fun p => p.basic_info)).getD [] := by
  intro derive api now store ident message e h
  cases hex : dictGet? store (derive ident) with
  | some p =>
    have : smart_chat derive api now store ident message =
        (store, apology_message) := by
      simp [smart_chat, is_existing_user, hex, h]
    simp [this, hex]
  | none =>
    have : smart_chat derive api now store ident message =
        (create_new_user_profile now store (derive ident), apology_message) := by
      simp [smart_chat, is_existing_user, hex, h]
    simp [this, hex, create_new_user_profile, dictGet?_dictSet_self,
      freshProfile]

/-- C2 witness: a failing API call against a store that already knows the user
leaves the recorded messages and basic info untouched. -/
theorem smart_chat_failure_no_persist_witness :
    (smart_chat (fun s => s) (fun _ => .error "boom") "t1"
        [("u", freshProfile "t0" "u")] "u" "salut").2 = apology_message ∧
    ((dictGet? (smart_chat (fun s => s) (fun _ => .error "boom") "t1"
        [("u", freshProfile "t0" "u")] "u" "salut").1 "u").map
      (fun p => p.messages)).getD [] =
      ((dictGet? [("u", freshProfile "t0" "u")] "u").map
        (fun p => p.messages)).getD [] ∧
    ((dictGet? (smart_chat (fun s => s) (fun _ => .error "boom") "t1"
        [("u", freshProfile "t0" "u")] "u" "salut").1 "u").map
      (fun p => p.basic_info)).getD [] =
      ((dictGet? [("u", freshProfile "t0" "u")] "u").map
        (fun p => p.basic_info)).getD [] :=
  smart_chat_failure_no_persist (fun s => s) (fun _ => .error "boom") "t1"
    [("u", freshProfile "t0" "u")] "u" "salut" "boom" rfl

/-- C9: for a previously unknown identifier, `smart_chat` creates and persists
the profile before the external call, so after a failing call the returned
store is exactly the store with the fresh (empty `basic_info`, empty
`messages`) profile added, the user now exists, and the apology is returned —
profile creation is not rolled back. -/
theorem smart_chat_failure_keeps_new_profile :
    ∀ (derive : String → String)
      (api : List (String × String) → Except String String)
      (now : String) (store : Store) (user_identifier message e : String),
      dictGet? store (derive user_identifier) = none →
      api (smart_chat_messages now store (derive user_identifier) message) =
        .error e →
      (smart_chat derive api now store user_identifier message).1 =
        create_new_user_profile now store (derive user_identifier) ∧
      dictGet? (smart_chat derive api now store user_identifier message).1
        (derive user_identifier) =
        some (freshProfile now (derive user_identifier)) ∧
      is_existing_user
        (smart_chat derive api now store user_identifier message).1
        (derive user_identifier) = true ∧
      (freshProfile now (derive user_identifier)).basic_info = [] ∧
      (freshProfile now (derive user_identifier)).messages = [] ∧
      (smart_chat derive api now store user_identifier message).2 =
        apology_message := by
  intro derive api now store ident message e hnone h
  have hchat : smart_chat derive api now store ident message =
      (create_new_user_profile now store (derive ident), apology_message) := by
    simp [smart_chat, is_existing_user, hnone, h]
  refine ⟨by simp [hchat], ?_, ?_, rfl, rfl, by simp [hchat]⟩
  · rw [hchat]
    exact dictGet?_dictSet_self store (derive ident) _
  · rw [hchat]
    simp [is_existing_user, create_new_user_profile, dictGet?_dictSet_self]

/-- C9 witness: a brand-new identifier chatted against an empty store with a
failing API ends up persisted with an empty profile while the apology is
returned. -/
theorem smart_chat_failure_keeps_new_profile_witness :
    (smart_chat (fun s => s) (fun _ => .error "boom") "t0" [] "u" "salut").1 =
      create_new_user_profile "t0" [] "u" ∧
    dictGet? (smart_chat (fun s => s) (fun _ => .error "boom") "t0" [] "u"
      "salut").1 "u" = some (freshProfile "t0" "u") ∧
    is_existing_user (smart_chat (fun s => s) (fun _ => .error "boom") "t0" []
      "u" "salut").1 "u" = true ∧
    (freshProfile "t0" "u").basic_info = [] ∧
    (freshProfile "t0" "u").messages = [] ∧
    (smart_chat (fun s => s) (fun _ => .error "boom") "t0" [] "u" "salut").2 =
      apology_message :=
  smart_chat_failure_keeps_new_profile (fun s => s) (fun _ => .error "boom")
    "t0" [] "u" "salut" "boom" rfl rfl

/-- C8: `get_personalized_greeting` returns the fixed onboarding request for
every unknown user; for a known user the recency clause is selected by the day
difference with bands 0 / 1 / 2–6 / ≥7; a malformed `last_active` timestamp
never raises — the recency line is simply omitted; and a known user with
`nom = "Marie"` whose `last_active` parses to 0 days ago gets
`"Bonjour Marie!"` with the 0-day "continuing" recency variant. -/
theorem get_personalized_greeting_spec :
    (∀ (daysAgo : String → Option Int) (store : Store) (uid : String),
      dictGet? store uid = none →
      get_personalized_greeting daysAgo store uid = unknown_user_greeting) ∧
    (∀ (daysAgo : String → Option Int) (la : String) (d : Int), la ≠ "" →
      daysAgo la = some d →
      (d = 0 → greetingRecencyParts daysAgo la =
        ["On continue notre conversation!"]) ∧
      (d = 1 → greetingRecencyParts daysAgo la =
        ["Content de vous revoir après hier!"]) ∧
      (2 ≤ d → d ≤ 6 → greetingRecencyParts daysAgo la =
        ["Ça fait " ++ toString d ++ " jours! Comment allez-vous?"]) ∧
      (7 ≤ d → greetingRecencyParts daysAgo la =
        ["Ça fait longtemps! Quoi de neuf?"])) ∧
    (∀ (daysAgo : String → Option Int) (store : Store) (uid : String)
      (p : UserProfile), dictGet? store uid = some p →
      daysAgo p.last_active = none →
      get_personalized_greeting daysAgo store uid =
        String.intercalate " "
          (greetingNameParts (greetingName p.basic_info) ++
           greetingProfessionParts (greetingProfession p.basic_info))) ∧
    (∀ (daysAgo : String → Option Int) (store : Store) (uid : String)
      (p : UserProfile), dictGet? store uid = some p →
      dictGet? p.basic_info "nom" = some (Value.vstr "Marie") →
      p.last_active ≠ "" → daysAgo p.last_active = some 0 →
      get_personalized_greeting daysAgo store uid =
        String.intercalate " "
          (["Bonjour Marie!"] ++
           greetingProfessionParts (greetingProfession p.basic_info) ++
           ["On continue notre conversation!"])) := by
  refine ⟨?_, ?_, ?_, ?_⟩
  · intro daysAgo store uid h
    simp [get_personalized_greeting, h]
  · intro daysAgo la d hla hd
    refine ⟨?_, ?_, ?_, ?_⟩
    · intro h0; subst h0
      simp [greetingRecencyParts, hla, hd]
    · intro h1; subst h1
      simp [greetingRecencyParts, hla, hd]
    · intro h2 h6
      simp [greetingRecencyParts, hla, hd, show d ≠ 0 by omega,
        show d ≠ 1 by omega, show d < 7 by omega]
    · intro h7
      simp [greetingRecencyParts, hla, hd, show d ≠ 0 by omega,
        show d ≠ 1 by omega, show ¬(d < 7) by omega]
  · intro daysAgo store uid p h hmal
    have hrec : greetingRecencyParts daysAgo p.last_active = [] := by
      by_cases hla : p.last_active = "" <;> simp [greetingRecencyParts, hla, hmal]
    simp [get_personalized_greeting, h, hrec]
  · intro daysAgo store uid p h hnom hla hd
    have hname : greetingName p.basic_info = "Marie" := by
      simp [greetingName, infoText, hnom]
    have hrec : greetingRecencyParts daysAgo p.last_active =
        ["On continue notre conversation!"] := by
      simp [greetingRecencyParts, hla, hd]
    simp [get_personalized_greeting, h, hname, hrec, greetingNameParts]

/-- C8 witness: the unknown-user prompt on the empty store, the 0-day
recency band, the malformed-timestamp omission, and the Marie greeting, all at
concrete inputs. -/
theorem get_personalized_greeting_spec_witness :
    get_personalized_greeting (fun _ => some 0) [] "ghost" =
      unknown_user_greeting ∧
    greetingRecencyParts (fun _ => some 0) "2024-01-01T00:00:00" =
      ["On continue notre conversation!"] ∧
    get_personalized_greeting (fun _ => none)
      [("u", { freshProfile "2024-01-01T00:00:00" "u" with
               basic_info := [("nom", Value.vstr "Marie")] })] "u" =
      String.intercalate " "
        (greetingNameParts (greetingName [("nom", Value.vstr "Marie")]) ++
         greetingProfessionParts (greetingProfession
           [("nom", Value.vstr "Marie")])) ∧
    get_personalized_greeting (fun _ => some 0)
      [("u", { freshProfile "2024-01-01T00:00:00" "u" with
               basic_info := [("nom", Value.vstr "Marie")] })] "u" =
      String.intercalate " "
        (["Bonjour Marie!"] ++
         greetingProfessionParts (greetingProfession
           [("nom", Value.vstr "Marie")]) ++
         ["On continue notre conversation!"]) :=
  ⟨get_personalized_greeting_spec.1 (fun _ => some 0) [] "ghost" rfl,
   ((get_personalized_greeting_spec.2.1 (fun _ => some 0)
      "2024-01-01T00:00:00" 0 (by decide) rfl).1 rfl),
   get_personalized_greeting_spec.2.2.1 (fun _ => none)
     [("u", { freshProfile "2024-01-01T00:00:00" "u" with
              basic_info := [("nom", Value.vstr "Marie")] })] "u" _ rfl rfl,
   get_personalized_greeting_spec.2.2.2 (fun _ => some 0)
     [("u", { freshProfile "2024-01-01T00:00:00" "u" with
              basic_info := [("nom", Value.vstr "Marie")] })] "u" _ rfl rfl
     (by decide) rfl⟩

end PyBot
